import Mathlib

/-!
Shallow embedding of `src/validation_app.py` (a Streamlit review tool for
satellite-imagery event validation).  Pure functions of the script are
translated directly; the Streamlit UI handlers are modelled as explicit
state-passing functions over the feedback store, and `st.rerun()` — which
raises in Streamlit and aborts the rest of the script run — is modelled as
an early return.  Python strings are modelled over ASCII (`str.strip`,
`str.lower`, `str.isdigit` restricted to ASCII, which covers every value
the claims are about).
-/

/-- Model of `datetime.date`: a calendar date as plain numerals.
Validity (what the `datetime` constructor accepts) is checked by
`validDate` below. -/
structure PyDate where
  year : Nat
  month : Nat
  day : Nat
deriving DecidableEq, Repr

/-- Gregorian leap-year rule, as used by `datetime`. -/
def isLeap (y : Nat) : Bool :=
  y % 4 == 0 && (y % 100 != 0 || y % 400 == 0)

/-- Days in a month, as validated by the `datetime.date` constructor. -/
def daysInMonth (y m : Nat) : Nat :=
  if m == 2 then (if isLeap y then 29 else 28)
  else if m == 4 || m == 6 || m == 9 || m == 11 then 30
  else 31

/-- The `datetime.date` constructor accepts exactly these triples
(`MINYEAR = 1`, `MAXYEAR = 9999`). -/
def validDate (d : PyDate) : Bool :=
  1 ≤ d.year && d.year ≤ 9999 && 1 ≤ d.month && d.month ≤ 12 &&
    1 ≤ d.day && d.day ≤ daysInMonth d.year d.month

/-- Chronological (lexicographic) order on dates, as `datetime.date.__lt__`. -/
def dateLT (a b : PyDate) : Bool :=
  a.year < b.year ||
    (a.year == b.year &&
      (a.month < b.month || (a.month == b.month && a.day < b.day)))

/-! ### Python string helpers (`str.strip`, `str.lower`) -/

/-- ASCII whitespace stripped by Python `str.strip()`. -/
def pyIsSpace (c : Char) : Bool :=
  c == ' ' || c == '\t' || c == '\n' || c == '\r' || c == '\x0b' || c == '\x0c'

/-- Remove trailing whitespace from a character list. -/
def rstripL : List Char → List Char
  | [] => []
  | c :: cs =>
    match rstripL cs with
    | [] => if pyIsSpace c then [] else [c]
    | r => c :: r

/-- Python `str.strip()` on the underlying character list. -/
def stripL (l : List Char) : List Char :=
  rstripL (l.dropWhile pyIsSpace)

/-- Python `str.strip()`. -/
def pyStrip (s : String) : String := ⟨stripL s.data⟩

/-- Python `str.lower()` (ASCII). -/
def pyLower (s : String) : String := ⟨s.data.map Char.toLower⟩

/-! ### `parse_date_from_filename` -/

/-- Numeric value of an ASCII digit character. -/
def digitVal (c : Char) : Nat := c.toNat - 48

/-- Model of `datetime.strptime(p, "%Y%m%d")` restricted to 8-character all-digit
inputs (the only way the script calls it): CPython's `_strptime` regex
forces the split 4/2/2 there, and the `datetime` constructor then
validates the calendar date; every other regex split leaves unconverted
data and raises, which the caller turns into `none`. -/
def parse8 (p : String) : Option PyDate :=
  match p.data with
  | [y1, y2, y3, y4, m1, m2, d1, d2] =>
    let y := ((digitVal y1 * 10 + digitVal y2) * 10 + digitVal y3) * 10 + digitVal y4
    let m := digitVal m1 * 10 + digitVal m2
    let dy := digitVal d1 * 10 + digitVal d2
    if validDate ⟨y, m, dy⟩ then some ⟨y, m, dy⟩ else none
  | _ => none

/-- Model of `datetime.strptime(p, "%Y-%m-%d")` restricted to 10-character inputs
containing a dash (the only way the script calls it): with exactly 10
characters the `_strptime` regex can only fully match the shape
`DDDD-DD-DD`; any other shape raises, which the caller turns into
`none`. -/
def parse10 (p : String) : Option PyDate :=
  match p.data with
  | [y1, y2, y3, y4, h1, m1, m2, h2, d1, d2] =>
    if y1.isDigit && y2.isDigit && y3.isDigit && y4.isDigit && h1 == '-' &&
        m1.isDigit && m2.isDigit && h2 == '-' && d1.isDigit && d2.isDigit then
      let y := ((digitVal y1 * 10 + digitVal y2) * 10 + digitVal y3) * 10 + digitVal y4
      let m := digitVal m1 * 10 + digitVal m2
      let dy := digitVal d1 * 10 + digitVal d2
      if validDate ⟨y, m, dy⟩ then some ⟨y, m, dy⟩ else none
    else none
  | _ => none

/-- The body of the `for p in parts` loop of `parse_date_from_filename`:
a `try` block whose exceptions skip to the next part, hence `Option`. -/
def tokenParse (p : String) : Option PyDate :=
  if p.data.length == 8 && p.data.all Char.isDigit then parse8 p
  else if p.data.length == 10 && p.data.any (fun c => c == '-') then parse10 p
  else none

/-- Python `str.split(sep)` for a one-character separator, over the
character list. -/
def splitChar (sep : Char) : List Char → List (List Char)
  | [] => [[]]
  | c :: cs =>
    match splitChar sep cs with
    | [] => [[]]
    | a :: as => if c == sep then [] :: a :: as else (c :: a) :: as

/-- Python `name.split("_")` as a list of strings. -/
def splitParts (name : String) : List String :=
  (splitChar '_' name.data).map (fun l => (⟨l⟩ : String))

/-- Source function `parse_date_from_filename`: scan underscore-delimited segments, first
successfully parsed date token wins. -/
def parse_date_from_filename (name : String) : Option PyDate :=
  (splitParts name).findSome? tokenParse

/-! ### `list_images` -/

/-- Model of `pathlib.PurePath.suffix`: `i = name.rfind('.')`, the suffix is
`name[i:]` when `0 < i < len(name) - 1`, else the empty string. -/
def rfindDot (l : List Char) : Option Nat :=
  (l.reverse.findIdx? (fun c => c == '.')).map (fun j => l.length - 1 - j)

/-- File extension of a filename, per `pathlib`. -/
def getSuffix (name : String) : String :=
  match rfindDot name.data with
  | some i => if 0 < i && i + 1 < name.data.length then ⟨name.data.drop i⟩ else ""
  | none => ""

/-- The sort key `parse_date_from_filename(f.name) or f.name`: a
`datetime.date` when the filename parses, otherwise the raw name. -/
def keyOf (f : String) : Sum PyDate String :=
  match parse_date_from_filename f with
  | some d => Sum.inl d
  | none => Sum.inr f

/-- A single `<` comparison between two sort keys.  Python raises
`TypeError` when one key is a `datetime.date` and the other a `str`. -/
def keyLt : Sum PyDate String → Sum PyDate String → Except String Bool
  | Sum.inl a, Sum.inl b => .ok (dateLT a b)
  | Sum.inr a, Sum.inr b => .ok (decide (a < b))
  | _, _ => .error "TypeError"

/-- Stable insertion of one element into an already-sorted run, failing as
soon as a mixed-type key comparison occurs (as CPython's `sorted` does;
when no comparison fails it produces the same stable order). -/
def insertSorted (x : String) : List String → Except String (List String)
  | [] => .ok [x]
  | y :: ys =>
    match keyLt (keyOf x) (keyOf y) with
    | .error e => .error e
    | .ok true => .ok (x :: y :: ys)
    | .ok false =>
      match insertSorted x ys with
      | .error e => .error e
      | .ok r => .ok (y :: r)

/-- Model of `sorted(files, key=lambda f: parse_date_from_filename(f.name)
or f.name)`. -/
def pySorted (files : List String) : Except String (List String) :=
  files.foldlM (fun acc x => insertSorted x acc) []

/-- Source function `list_images`, over the directory listing (a missing directory is the
empty listing). -/
def list_images (listing : List String) : Except String (List String) :=
  pySorted (listing.filter
    (fun f => [".jpg", ".jpeg", ".png"].contains (pyLower (getSuffix f))))

/-! ### `render_image_gallery_with_captions` -/

/-- One `sat_timeline` entry: `{year, month, day, caption}` with the month
as a full English month name. -/
structure TimelineEntry where
  year : Nat
  month : String
  day : Nat
  caption : String
deriving DecidableEq, Repr

/-- Full month names recognised by `datetime.strptime(·, "%B")`. -/
def monthNames : List String :=
  ["january", "february", "march", "april", "may", "june",
   "july", "august", "september", "october", "november", "december"]

/-- Model of `datetime.strptime(month, "%B").month`: case-insensitive full-name
lookup. -/
def monthFromName (s : String) : Option Nat :=
  (monthNames.findIdx? (fun m => m == pyLower s)).map (fun i => i + 1)

/-- Model of `datetime(year=entry["year"], month=strptime(entry["month"], "%B").month,
day=entry["day"]).date()`; any failure is skipped by the caller. -/
def entryDate (e : TimelineEntry) : Option PyDate :=
  match monthFromName e.month with
  | some m => if validDate ⟨e.year, m, e.day⟩ then some ⟨e.year, m, e.day⟩ else none
  | none => none

/-- The `captions` dict (date to caption), as an association list with
unique keys. -/
abbrev CapMap : Type := List (PyDate × String)

/-- Dict read `captions.get(k)` / `captions[k]`. -/
def capGet : CapMap → PyDate → Option String
  | [], _ => none
  | (k0, v0) :: rest, k => if k0 == k then some v0 else capGet rest k

/-- Dict write `captions[k] = v` (overwrite in place, else append). -/
def capInsert : CapMap → PyDate → String → CapMap
  | [], k, v => [(k, v)]
  | (k0, v0) :: rest, k, v =>
    if k0 == k then (k, v) :: rest else (k0, v0) :: capInsert rest k v

/-- One iteration of the `for entry in sat_timeline` loop: insert the raw
caption, then rewrite it with the `"(START) "` tag and then the
`"(END) "` tag when the entry date hits the respective marker. -/
def capStep (start_date end_date : Option PyDate) (caps : CapMap)
    (e : TimelineEntry) : CapMap :=
  match entryDate e with
  | none => caps
  | some dt =>
    let caps := capInsert caps dt e.caption
    let caps :=
      match start_date with
      | some s => if dt == s then capInsert caps dt ("(START) " ++ ((capGet caps dt).getD "")) else caps
      | none => caps
    match end_date with
    | some s => if dt == s then capInsert caps dt ("(END) " ++ ((capGet caps dt).getD "")) else caps
    | none => caps

/-- The `captions` map built from the timeline. -/
def buildCaptions (sat_timeline : List TimelineEntry)
    (start_date end_date : Option PyDate) : CapMap :=
  sat_timeline.foldl (capStep start_date end_date) []

/-- The net caption value `capStep` stores for a parsed entry date. -/
def markCap (start_date end_date : Option PyDate) (dt : PyDate) (c : String) : String :=
  let c1 :=
    match start_date with
    | some s => if dt == s then "(START) " ++ c else c
    | none => c
  match end_date with
  | some s => if dt == s then "(END) " ++ c1 else c1
  | none => c1

/-- The cloud-filter test on one image file: look up the caption of its
parsed date (default `""`) and compare it, stripped and lowercased, with
`"obscured by clouds"`. -/
def cloudPred (caps : CapMap) (f : String) : Bool :=
  let caption :=
    match parse_date_from_filename f with
    | some d => (capGet caps d).getD ""
    | none => ""
  pyLower (pyStrip caption) == "obscured by clouds"

/-- The `filtered_files` loop: drop images marked obscured by clouds. -/
def cloudFilter (caps : CapMap) (files : List String) : List String :=
  files.filter (fun f => !cloudPred caps f)

/-- Displayed caption of one image: map entry of its parsed date, default
`"No caption available"`, or the raw filename when no date parses. -/
def captionFor (caps : CapMap) (f : String) : String :=
  match parse_date_from_filename f with
  | some d => (capGet caps d).getD "No caption available"
  | none => f

/-- Model of `st.slider(label, minV, maxV, value)`: raises a
`StreamlitAPIException` when the range is empty or the default value is
out of range; otherwise yields the user selection `sel` clamped into the
range. -/
def st_slider (minV maxV value sel : Int) : Except String Int :=
  if maxV < minV then .error "StreamlitAPIException"
  else if value < minV || maxV < value then .error "StreamlitAPIException"
  else .ok (min (max sel minV) maxV)

/-- What the gallery renders. -/
inductive GalleryView where
  | warnNoImages (msg : String)
  | singleImage (file : String) (date : Option PyDate) (caption : String)
  | sliderImage (index : Int) (file : String) (date : Option PyDate) (caption : String)
deriving DecidableEq, Repr

/-- Source function `render_image_gallery_with_captions`, over the directory listing, the
timeline, and the optional start/end markers; `sel` is the reviewer's
slider selection.  Python exceptions (the mixed-key `sorted` TypeError,
the slider exception) surface as `Except.error`. -/
def render_image_gallery_with_captions (listing : List String)
    (sat_timeline : List TimelineEntry) (start_date end_date : Option PyDate)
    (sel : Int) : Except String GalleryView :=
  match list_images listing with
  | .error e => .error e
  | .ok image_files =>
    if image_files.isEmpty then .ok (.warnNoImages "No images found") else
    let captions := buildCaptions sat_timeline start_date end_date
    let files := cloudFilter captions image_files
    let count : Int := files.length
    if count == 1 then
      let f := files.headD ""
      .ok (.singleImage f (parse_date_from_filename f) (captionFor captions f))
    else
      match st_slider 0 (count - 1) 0 sel with
      | .error e => .error e
      | .ok index =>
        let f := files.getD index.toNat ""
        .ok (.sliderImage index f (parse_date_from_filename f) (captionFor captions f))

/-! ### Feedback store (`write_feedback`, clear/save handlers) -/

/-- One row of `feedback.csv`; `none` models a pandas missing value
(`None`/`NaN`), `some ""` an explicitly written empty string. -/
structure FeedbackRow where
  article_id : String
  visible : Option String
  new_start_date : Option String
  new_end_date : Option String
  notes : Option String
deriving DecidableEq, Repr

/-- Load of the row of one article key (first match, as
`df.loc[df["article_id"] == aid].values[0]`). -/
def loadRecord (store : List FeedbackRow) (aid : String) : Option FeedbackRow :=
  store.find? (fun r => r.article_id == aid)

/-- Source function `write_feedback(article_id, feedback, note=None)`: ensure the row
exists (all other fields missing), then set the visibility field when
`feedback` is given, then the notes field when `note` is given. -/
def write_feedback (store : List FeedbackRow) (article_id : String)
    (feedback : Option String) (note : Option String) : List FeedbackRow :=
  let df :=
    if store.any (fun r => r.article_id == article_id) then store
    else store ++ [⟨article_id, none, none, none, none⟩]
  let df :=
    match feedback with
    | none => df
    | some fb => df.map (fun r =>
        if r.article_id == article_id then
          ⟨r.article_id, some fb, r.new_start_date, r.new_end_date, r.notes⟩
        else r)
  match note with
  | none => df
  | some nt => df.map (fun r =>
      if r.article_id == article_id then
        ⟨r.article_id, r.visible, r.new_start_date, r.new_end_date, some nt⟩
      else r)

/-- The Clear button handler for the start date: create a placeholder row
`[aid, None, "", "", ""]` when the key is absent, then write `""` into
`new_start_date` for the key's rows, and persist. -/
def clearStartDate (store : List FeedbackRow) (article_id : String) : List FeedbackRow :=
  let df :=
    if store.any (fun r => r.article_id == article_id) then store
    else store ++ [⟨article_id, none, some "", some "", some ""⟩]
  df.map (fun r =>
    if r.article_id == article_id then
      ⟨r.article_id, r.visible, some "", r.new_end_date, r.notes⟩
    else r)

/-- Negation of `visible_val not in ("Yes", "No", "Unsure")`. -/
def visOk : Option String → Bool
  | some v => v == "Yes" || v == "No" || v == "Unsure"
  | none => false

/-- Helper `padNum` for `d.isoformat()` of the saved corrected dates. -/
def padNum (width n : Nat) : String :=
  let s := toString n
  ⟨List.replicate (width - s.data.length) '0' ++ s.data⟩

/-- ISO rendering of a date, `YYYY-MM-DD`. -/
def dateIso (d : PyDate) : String :=
  padNum 4 d.year ++ "-" ++ padNum 2 d.month ++ "-" ++ padNum 2 d.day

/-- Python `new_start.isoformat() if new_start else ""`. -/
def isoOrEmpty : Option PyDate → String
  | some d => dateIso d
  | none => ""

/-- A `st.session_state["date_message"]` value: `{"type": …, "text": …}`. -/
structure Msg where
  kind : String
  text : String
deriving DecidableEq, Repr

/-- The Save Corrected Dates button handler.  It reads the visibility of
the current article from the loaded feedback frame; when the visibility
is not a Yes/No/Unsure judgment it stores an error message and calls
`st.rerun()`, which raises and aborts the handler before any write, so
the store is returned unchanged.  Otherwise it upserts both date fields
and persists. -/
def saveDatesHandler (store : List FeedbackRow) (article_id : String)
    (new_start new_end : Option PyDate) : Msg × List FeedbackRow :=
  let visible_val : Option String :=
    match store.find? (fun r => r.article_id == article_id) with
    | some r => r.visible
    | none => none
  if visOk visible_val then
    let df :=
      if store.any (fun r => r.article_id == article_id) then store
      else store ++ [⟨article_id, visible_val, some "", some "", some ""⟩]
    let df := df.map (fun r =>
      if r.article_id == article_id then
        ⟨r.article_id, r.visible, some (isoOrEmpty new_start), r.new_end_date, r.notes⟩
      else r)
    let df := df.map (fun r =>
      if r.article_id == article_id then
        ⟨r.article_id, r.visible, r.new_start_date, some (isoOrEmpty new_end), r.notes⟩
      else r)
    (⟨"success", "Saved corrected dates."⟩, df)
  else
    (⟨"error", "ERROR: Please select whether the event is visible before saving dates."⟩, store)

/-- CSV quoting as `pandas.DataFrame.to_csv` (minimal quoting). -/
def csvQuote (s : String) : String :=
  if s.data.any (fun c => c == ',' || c == '"' || c == '\n' || c == '\r') then
    "\"" ++ ⟨s.data.foldr (fun c acc => if c == '"' then '"' :: '"' :: acc else c :: acc) []⟩ ++ "\""
  else s

/-- A missing value is written as an empty field. -/
def csvCell : Option String → String
  | none => ""
  | some s => csvQuote s

/-- One CSV line of a feedback row. -/
def csvRow (r : FeedbackRow) : String :=
  csvQuote r.article_id ++ "," ++ csvCell r.visible ++ "," ++
    csvCell r.new_start_date ++ "," ++ csvCell r.new_end_date ++ "," ++ csvCell r.notes

/-- Model of `df.to_csv(FEEDBACK_FILE, index=False)`: the bytes persisted to the
feedback file. -/
def toCsv (store : List FeedbackRow) : String :=
  "article_id,visible,new_start_date,new_end_date,notes\n" ++
    String.join (store.map (fun r => csvRow r ++ "\n"))

/-! ### Navigation -/

/-- The Next Article handler:
`st.session_state.article_index = (index + 1) % len(articles)`. -/
def nextIndex (n i : Int) : Int := (i + 1) % n

/-- The Previous Article handler:
`st.session_state.article_index = (index - 1) % len(articles)`. -/
def prevIndex (n i : Int) : Int := (i - 1) % n

/-! ### Claim-side encodings (used to state the claims, not taken from the
source): the `YYYYMMDD` / `YYYY-MM-DD` renderings of a calendar date, and
the caption decoration described by the spec's marker rule. -/

/-- The ASCII digit character of `n < 10`. -/
def digitChar (n : Nat) : Char := Char.ofNat (48 + n)

/-- Two-digit zero-padded rendering, as characters. -/
def pad2L (n : Nat) : List Char := [digitChar (n / 10 % 10), digitChar (n % 10)]

/-- Four-digit zero-padded rendering, as characters. -/
def pad4L (n : Nat) : List Char :=
  [digitChar (n / 1000 % 10), digitChar (n / 100 % 10),
   digitChar (n / 10 % 10), digitChar (n % 10)]

/-- The claim's 8-digit `YYYYMMDD` token encoding a calendar date. -/
def fmt8 (d : PyDate) : String := ⟨pad4L d.year ++ (pad2L d.month ++ pad2L d.day)⟩

/-- The claim's 10-character `YYYY-MM-DD` token encoding a calendar date. -/
def fmt10 (d : PyDate) : String :=
  ⟨pad4L d.year ++ ('-' :: pad2L d.month ++ ('-' :: pad2L d.day))⟩

/-- The spec's marker rule for a caption at date `q`: an `"(END) "` tag
applied after a `"(START) "` tag, each present exactly when the
respective marker equals `q`. -/
def decorate (start_date end_date : Option PyDate) (q : PyDate) (c : String) : String :=
  (if end_date == some q then "(END) " else "") ++
    ((if start_date == some q then "(START) " else "") ++ c)

/-! ## Helper lemmas -/

theorem str_data_append (s t : String) : (s ++ t).data = s.data ++ t.data := rfl

theorem str_nil_append (s : String) : "" ++ s = s := rfl

theorem find?_beq_eq {aid : String} {l : List FeedbackRow} {r : FeedbackRow}
    (h : l.find? (fun x => x.article_id == aid) = some r) : r.article_id = aid := by
  have hp := List.find?_some h
  exact eq_of_beq hp

theorem any_eq_isSome_find? (l : List FeedbackRow) (aid : String) :
    l.any (fun r => r.article_id == aid) =
      (l.find? (fun r => r.article_id == aid)).isSome := by
  induction l with
  | nil => rfl
  | cons r rest ih =>
    cases h : (r.article_id == aid) <;>
      simp [List.any_cons, List.find?_cons, h, ih]

/-! ## Claim C9 -/

/-- Claim C9: the "obscured by clouds" gallery filter is idempotent — for
every caption map and asset list, re-applying `cloudFilter` to an
already-filtered list returns it unchanged. -/
theorem c9_cloud_filter_idempotent (caps : CapMap) (files : List String) :
    cloudFilter caps (cloudFilter caps files) = cloudFilter caps files := by
  unfold cloudFilter
  induction files with
  | nil => rfl
  | cons f fs ih =>
    cases h : cloudPred caps f <;> simp [List.filter_cons, h, ih]

/-! ## Claim C2 (code bug) -/

/-- Claim C2 is a code bug: the "no images" message is emitted only before
the cloud filter runs.  On an article whose single image (dated
2023-01-05) carries the timeline caption "Obscured by Clouds", every
asset is filtered out and the code then calls
`st.slider("Select Image", 0, count - 1, 0)` with `count = 0`, i.e. an
empty range, which raises a `StreamlitAPIException` instead of signalling
"no imagery available". -/
theorem c2_zero_after_filter_raises :
    render_image_gallery_with_captions ["img_20230105_rgb.png"]
      [⟨2023, "January", 5, "Obscured by Clouds"⟩] none none 0 =
      .error "StreamlitAPIException" := rfl

/-! ## Claim C4 (code bug) -/

/-- Claim C4 is a code bug: `list_images` sorts with the key
`parse_date_from_filename(f.name) or f.name`, so a listing that mixes a
dated filename (key: `datetime.date`) with an undated one (key: `str`)
makes `sorted` compare a date with a string, which raises `TypeError`
instead of producing the claimed total order. -/
theorem c4_mixed_keys_sort_raises :
    list_images ["a.png", "b_2023-01-05_x.png"] = .error "TypeError" := rfl

/-! ## Claim C7 -/

/-- Claim C7: `next` moves the session index to `(i+1) mod n` and
`previous` to `(i-1) mod n`, both always within bounds; and in a
3-article catalog `a1,a2,a3`, jumping to index 1 and applying `next`
three times visits `a2, a3, a1, a2`. -/
theorem c7_navigation_wrap (n i : Int) (hn : 0 < n) (h0 : 0 ≤ i) (hi : i < n) :
    (nextIndex n i = (i + 1) % n ∧ prevIndex n i = (i - 1) % n ∧
      0 ≤ nextIndex n i ∧ nextIndex n i < n ∧
      0 ≤ prevIndex n i ∧ prevIndex n i < n) ∧
    (["a1", "a2", "a3"][(1 : Int).toNat]? = some "a2" ∧
     ["a1", "a2", "a3"][(nextIndex 3 1).toNat]? = some "a3" ∧
     ["a1", "a2", "a3"][(nextIndex 3 (nextIndex 3 1)).toNat]? = some "a1" ∧
     ["a1", "a2", "a3"][(nextIndex 3 (nextIndex 3 (nextIndex 3 1))).toNat]? = some "a2") := by
  refine ⟨⟨rfl, rfl, ?_, ?_, ?_, ?_⟩, by decide⟩
  · exact Int.emod_nonneg _ (by omega)
  · exact Int.emod_lt_of_pos _ hn
  · exact Int.emod_nonneg _ (by omega)
  · exact Int.emod_lt_of_pos _ hn

/-- Witness for C7: the bounds and the wrap scenario at `n = 3`, `i = 1`. -/
theorem c7_navigation_wrap_witness :
    ((0 : Int) < 3 ∧ (0 : Int) ≤ 1 ∧ (1 : Int) < 3) ∧
    ((nextIndex 3 1 = (1 + 1) % 3 ∧ prevIndex 3 1 = (1 - 1) % 3 ∧
      0 ≤ nextIndex 3 1 ∧ nextIndex 3 1 < 3 ∧
      0 ≤ prevIndex 3 1 ∧ prevIndex 3 1 < 3) ∧
     (["a1", "a2", "a3"][(1 : Int).toNat]? = some "a2" ∧
      ["a1", "a2", "a3"][(nextIndex 3 1).toNat]? = some "a3" ∧
      ["a1", "a2", "a3"][(nextIndex 3 (nextIndex 3 1)).toNat]? = some "a1" ∧
      ["a1", "a2", "a3"][(nextIndex 3 (nextIndex 3 (nextIndex 3 1))).toNat]? = some "a2")) :=
  ⟨⟨by decide, by decide, by decide⟩,
   c7_navigation_wrap 3 1 (by decide) (by decide) (by decide)⟩

/-! ## Feedback-store lemmas -/

theorem loadRecord_map_update (store : List FeedbackRow) (aid : String)
    (g : FeedbackRow → FeedbackRow) (hg : ∀ r, (g r).article_id = r.article_id) :
    loadRecord (store.map (fun r => if r.article_id == aid then g r else r)) aid
      = (loadRecord store aid).map g := by
  induction store with
  | nil => rfl
  | cons r rest ih =>
    simp only [loadRecord] at ih ⊢
    cases hb : (r.article_id == aid) with
    | true =>
      have hgb : ((g r).article_id == aid) = true := by rw [hg r]; exact hb
      simp only [List.map_cons, List.find?]
      rw [hb]
      have hred : (((if (true = true) then g r else r).article_id == aid)) = true := by
        simpa using hgb
      rw [hred]
      rfl
    | false =>
      simp only [List.map_cons, List.find?]
      have hhead : (if (r.article_id == aid) = true then g r else r) = r := by simp [hb]
      rw [hhead, hb]
      exact ih

theorem loadRecord_append_blank (store : List FeedbackRow) (aid : String)
    (b : FeedbackRow) (h : store.any (fun r => r.article_id == aid) = false) :
    loadRecord (store ++ [b]) aid = if b.article_id == aid then some b else none := by
  induction store with
  | nil =>
    cases hb : (b.article_id == aid) <;>
      simp [loadRecord, List.find?, hb]
  | cons r rest ih =>
    simp only [List.any_cons, Bool.or_eq_false_iff] at h
    simp only [loadRecord, List.cons_append, List.find?_cons, h.1]
    exact ih h.2

/-! ## Claim C3 -/

/-- Claim C3: writing a visibility value creates the row if absent (all
other fields empty) and otherwise updates only the visibility field: a
subsequent load returns a record whose visibility is the value just set,
with the notes and both date fields exactly as before the call. -/
theorem c3_set_visibility_isolated_upsert (store : List FeedbackRow) (aid v : String) :
    loadRecord (write_feedback store aid (some v) none) aid =
      some ⟨aid, some v,
        (loadRecord store aid).bind (fun r => r.new_start_date),
        (loadRecord store aid).bind (fun r => r.new_end_date),
        (loadRecord store aid).bind (fun r => r.notes)⟩ := by
  have hwf : write_feedback store aid (some v) none =
      (if store.any (fun r => r.article_id == aid) then store
       else store ++ [⟨aid, none, none, none, none⟩]).map
        (fun r => if r.article_id == aid then
          ⟨r.article_id, some v, r.new_start_date, r.new_end_date, r.notes⟩ else r) := rfl
  rw [hwf, loadRecord_map_update _ aid
    (fun r => ⟨r.article_id, some v, r.new_start_date, r.new_end_date, r.notes⟩)
    (fun r => rfl)]
  cases hf : loadRecord store aid with
  | some r =>
    have hf2 : store.find? (fun x => x.article_id == aid) = some r := hf
    have hs : store.any (fun x => x.article_id == aid) = true := by
      rw [any_eq_isSome_find?, hf2]; rfl
    have hra : r.article_id = aid := find?_beq_eq hf2
    rw [hs]
    simp only [if_true]
    rw [hf]
    simp [hra]
  | none =>
    have hf2 : store.find? (fun x => x.article_id == aid) = none := hf
    have hs : store.any (fun x => x.article_id == aid) = false := by
      rw [any_eq_isSome_find?, hf2]; rfl
    rw [hs]
    simp only [Bool.false_eq_true, if_false]
    rw [loadRecord_append_blank _ _ _ hs]
    simp

/-! ## Claim C5 -/

/-- Claim C5: the clear-start-date handler writes the empty string into
`new_start_date`; when the row exists its end date and notes (and
visibility) keep their prior values, and when it does not exist a
placeholder row with null visibility is created. -/
theorem c5_clear_start_date (store : List FeedbackRow) (aid : String) :
    loadRecord (clearStartDate store aid) aid =
      some (match loadRecord store aid with
        | some r => ⟨r.article_id, r.visible, some "", r.new_end_date, r.notes⟩
        | none => ⟨aid, none, some "", some "", some ""⟩) := by
  have hcl : clearStartDate store aid =
      (if store.any (fun r => r.article_id == aid) then store
       else store ++ [⟨aid, none, some "", some "", some ""⟩]).map
        (fun r => if r.article_id == aid then
          ⟨r.article_id, r.visible, some "", r.new_end_date, r.notes⟩ else r) := rfl
  rw [hcl, loadRecord_map_update _ aid
    (fun r => ⟨r.article_id, r.visible, some "", r.new_end_date, r.notes⟩)
    (fun r => rfl)]
  cases hf : loadRecord store aid with
  | some r =>
    have hf2 : store.find? (fun x => x.article_id == aid) = some r := hf
    have hs : store.any (fun x => x.article_id == aid) = true := by
      rw [any_eq_isSome_find?, hf2]; rfl
    rw [hs]
    simp only [if_true]
    rw [hf]
    rfl
  | none =>
    have hf2 : store.find? (fun x => x.article_id == aid) = none := hf
    have hs : store.any (fun x => x.article_id == aid) = false := by
      rw [any_eq_isSome_find?, hf2]; rfl
    rw [hs]
    simp only [Bool.false_eq_true, if_false]
    rw [loadRecord_append_blank _ _ _ hs]
    simp

/-! ## Claim C1 -/

/-- Claim C1: for every store state and every article key whose rows (if
any) carry no Yes/No/Unsure visibility, the Save Corrected Dates handler
stores an explicit error message and performs no write — the store, and
hence the persisted CSV bytes, are identical to before the call. -/
theorem c1_save_dates_requires_visibility (store : List FeedbackRow) (aid : String)
    (ns ne : Option PyDate)
    (h : ∀ r ∈ store, r.article_id = aid → visOk r.visible = false) :
    saveDatesHandler store aid ns ne =
      (⟨"error", "ERROR: Please select whether the event is visible before saving dates."⟩,
        store) ∧
    toCsv (saveDatesHandler store aid ns ne).2 = toCsv store := by
  have hv : visOk (match store.find? (fun r => r.article_id == aid) with
      | some r => r.visible
      | none => none) = false := by
    cases hf : store.find? (fun r => r.article_id == aid) with
    | none => rfl
    | some r => exact h r (List.mem_of_find?_eq_some hf) (find?_beq_eq hf)
  have heq : saveDatesHandler store aid ns ne =
      (⟨"error", "ERROR: Please select whether the event is visible before saving dates."⟩,
        store) := by
    simp only [saveDatesHandler]
    rw [hv]
    simp
  exact ⟨heq, by rw [heq]⟩

/-- Witness for C1: a store whose only row for `"a1"` has no visibility
judgment (only a note) makes the handler fail and leave the store — and
its CSV rendering — unchanged. -/
theorem c1_save_dates_requires_visibility_witness :
    (∀ r ∈ [(⟨"a1", none, none, none, some "hi"⟩ : FeedbackRow)],
      r.article_id = "a1" → visOk r.visible = false) ∧
    (saveDatesHandler [(⟨"a1", none, none, none, some "hi"⟩ : FeedbackRow)] "a1" none none =
      (⟨"error", "ERROR: Please select whether the event is visible before saving dates."⟩,
        [(⟨"a1", none, none, none, some "hi"⟩ : FeedbackRow)]) ∧
     toCsv (saveDatesHandler [(⟨"a1", none, none, none, some "hi"⟩ : FeedbackRow)] "a1" none none).2 =
       toCsv [(⟨"a1", none, none, none, some "hi"⟩ : FeedbackRow)]) :=
  ⟨by decide, c1_save_dates_requires_visibility _ _ none none (by decide)⟩

/-! ## Caption-map lemmas -/

theorem capGet_capInsert (m : CapMap) (k : PyDate) (v : String) (q : PyDate) :
    capGet (capInsert m k v) q = if k == q then some v else capGet m q := by
  induction m with
  | nil => rfl
  | cons p rest ih =>
    obtain ⟨k0, v0⟩ := p
    by_cases h : k0 = k
    · subst h
      simp only [capInsert, beq_self_eq_true, if_true, capGet]
      cases hq : (k0 == q) <;> simp [capGet, hq]
    · have hb : (k0 == k) = false := by simp [h]
      simp only [capInsert, hb, Bool.false_eq_true, if_false, capGet, ih]
      by_cases h0 : k0 = q
      · subst h0
        have hkq : (k == k0) = false := by
          simp only [beq_eq_false_iff_ne, ne_eq]
          exact fun hh => h hh.symm
        simp [hkq]
      · have hb0 : (k0 == q) = false := by simp [h0]
        simp [hb0]

theorem capInsert_capInsert (m : CapMap) (k : PyDate) (a b : String) :
    capInsert (capInsert m k a) k b = capInsert m k b := by
  induction m with
  | nil => simp [capInsert]
  | cons p rest ih =>
    obtain ⟨k0, v0⟩ := p
    cases h : (k0 == k) with
    | true => simp [capInsert, h]
    | false => simp [capInsert, h, ih]

theorem beq_some_comm (dt : PyDate) (o : Option PyDate) :
    (o == some dt) = (match o with | none => false | some s => dt == s) := by
  cases o with
  | none => rfl
  | some s =>
    show (s == dt) = (dt == s)
    by_cases h : s = dt
    · subst h; rfl
    · have a1 : (s == dt) = false := by simp [h]
      have a2 : (dt == s) = false := by
        simp only [beq_eq_false_iff_ne, ne_eq]
        exact fun hh => h hh.symm
      rw [a1, a2]

theorem markCap_eq_decorate (sd ed : Option PyDate) (dt : PyDate) (c : String) :
    markCap sd ed dt c = decorate sd ed dt c := by
  unfold markCap decorate
  rw [beq_some_comm dt ed, beq_some_comm dt sd]
  cases sd with
  | none =>
    cases ed with
    | none => simp [str_nil_append]
    | some s2 => cases h2 : (dt == s2) <;> simp [h2, str_nil_append]
  | some s1 =>
    cases ed with
    | none => cases h1 : (dt == s1) <;> simp [h1, str_nil_append]
    | some s2 =>
      cases h1 : (dt == s1) <;> cases h2 : (dt == s2) <;>
        simp [h1, h2, str_nil_append]

theorem capStep_eq (sd ed : Option PyDate) (caps : CapMap) (e : TimelineEntry) :
    capStep sd ed caps e =
      match entryDate e with
      | none => caps
      | some dt => capInsert caps dt (markCap sd ed dt e.caption) := by
  cases hd : entryDate e with
  | none => simp [capStep, hd]
  | some dt =>
    have hget : ∀ (m : CapMap) (c : String), capGet (capInsert m dt c) dt = some c := by
      intro m c; rw [capGet_capInsert]; simp
    simp only [capStep, hd, markCap]
    cases sd with
    | none =>
      cases ed with
      | none => rfl
      | some s2 => cases h2 : (dt == s2) <;> simp [h2, hget, capInsert_capInsert]
    | some s1 =>
      cases h1 : (dt == s1) with
      | true =>
        cases ed with
        | none => simp [h1, hget, capInsert_capInsert]
        | some s2 => cases h2 : (dt == s2) <;> simp [h1, h2, hget, capInsert_capInsert]
      | false =>
        cases ed with
        | none => simp [h1]
        | some s2 => cases h2 : (dt == s2) <;> simp [h1, h2, hget, capInsert_capInsert]

theorem markCap_none (dt : PyDate) (c : String) : markCap none none dt c = c := rfl

theorem foldl_capStep_decorate (sd ed : Option PyDate) (tl : List TimelineEntry) :
    ∀ (m1 m2 : CapMap),
      (∀ q, capGet m2 q = (capGet m1 q).map (decorate sd ed q)) →
      ∀ q, capGet (tl.foldl (capStep sd ed) m2) q =
        (capGet (tl.foldl (capStep none none) m1) q).map (decorate sd ed q) := by
  induction tl with
  | nil => intro m1 m2 h q; simpa using h q
  | cons e tl ih =>
    intro m1 m2 h q
    simp only [List.foldl_cons]
    apply ih
    intro q2
    rw [capStep_eq, capStep_eq]
    cases hd : entryDate e with
    | none => exact h q2
    | some dt =>
      rw [capGet_capInsert, capGet_capInsert]
      cases hq : (dt == q2) with
      | true =>
        have hdq : dt = q2 := eq_of_beq hq
        subst hdq
        simp [hq, markCap_eq_decorate, decorate, str_nil_append]
      | false =>
        simp only [hq, Bool.false_eq_true, if_false]
        exact h q2

theorem buildCaptions_decorate (tl : List TimelineEntry) (sd ed : Option PyDate)
    (q : PyDate) :
    capGet (buildCaptions tl sd ed) q =
      (capGet (buildCaptions tl none none) q).map (decorate sd ed q) := by
  unfold buildCaptions
  exact foldl_capStep_decorate sd ed tl [] [] (fun q2 => rfl) q

/-! ## Claim C6 -/

/-- Claim C6: relative to the unmarked caption map, the displayed caption
at the start-marker date carries a literal `"(START) "` tag and the one
at the end-marker date an `"(END) "` tag; captions at all other dates are
untagged, and when both markers coincide on one date the END tag is
applied after the START tag. -/
theorem c6_marker_caption_tags (tl : List TimelineEntry) (sd ed : Option PyDate)
    (d : PyDate) (c : String)
    (h : capGet (buildCaptions tl none none) d = some c) :
    capGet (buildCaptions tl sd ed) d =
      some ((if ed == some d then "(END) " else "") ++
        ((if sd == some d then "(START) " else "") ++ c)) := by
  rw [buildCaptions_decorate, h]
  rfl

/-- Witness for C6: a timeline with captions on 2023-01-01 (start marker),
2023-01-10 (end marker) and 2023-01-07 (unrelated), instantiated at the
start-marker date. -/
theorem c6_marker_caption_tags_witness :
    (capGet (buildCaptions
        [⟨2023, "January", 1, "cap1"⟩, ⟨2023, "January", 10, "cap2"⟩,
         ⟨2023, "January", 7, "cap3"⟩] none none) ⟨2023, 1, 1⟩ = some "cap1") ∧
    capGet (buildCaptions
        [⟨2023, "January", 1, "cap1"⟩, ⟨2023, "January", 10, "cap2"⟩,
         ⟨2023, "January", 7, "cap3"⟩]
        (some ⟨2023, 1, 1⟩) (some ⟨2023, 1, 10⟩)) ⟨2023, 1, 1⟩ =
      some ((if (some (⟨2023, 1, 10⟩ : PyDate) : Option PyDate) == some ⟨2023, 1, 1⟩
              then "(END) " else "") ++
        ((if (some (⟨2023, 1, 1⟩ : PyDate) : Option PyDate) == some ⟨2023, 1, 1⟩
            then "(START) " else "") ++ "cap1")) :=
  ⟨by decide, c6_marker_caption_tags _ _ _ _ _ (by decide)⟩

/-! ## Claim C10 -/

theorem head_lower_strip (v : String) (h : v.data.head? = some '(') :
    (pyLower (pyStrip v)).data.head? = some '(' := by
  obtain ⟨t, hv⟩ : ∃ t, v.data = '(' :: t := by
    cases hd : v.data with
    | nil => rw [hd] at h; simp at h
    | cons a t =>
      rw [hd] at h
      simp only [List.head?_cons, Option.some.injEq] at h
      exact ⟨t, by rw [h]⟩
  show (List.map Char.toLower (stripL v.data)).head? = some '('
  rw [hv]
  unfold stripL
  rw [List.dropWhile_cons]
  rw [show pyIsSpace '(' = false from rfl]
  simp only [Bool.false_eq_true, if_false]
  obtain ⟨t2, ht2⟩ : ∃ t2, rstripL ('(' :: t) = '(' :: t2 := by
    cases hr : rstripL t with
    | nil => exact ⟨[], by rw [rstripL, hr]; rfl⟩
    | cons x xs => exact ⟨x :: xs, by rw [rstripL, hr]⟩
  rw [ht2, List.map_cons]
  simp only [List.head?_cons]
  decide

theorem tag_not_cloud (v : String) (h : v.data.head? = some '(') :
    (pyLower (pyStrip v) == "obscured by clouds") = false := by
  cases hbe : (pyLower (pyStrip v) == "obscured by clouds") with
  | false => rfl
  | true =>
    exfalso
    have heq : pyLower (pyStrip v) = "obscured by clouds" := eq_of_beq hbe
    have h1 := head_lower_strip v h
    rw [heq] at h1
    exact absurd h1 (by decide)

theorem decorate_marked_head (sd ed : Option PyDate) (d : PyDate) (c : String)
    (hm : sd = some d ∨ ed = some d) :
    (decorate sd ed d c).data.head? = some '(' := by
  rw [show decorate sd ed d c =
    (if ed == some d then "(END) " else "") ++
      ((if sd == some d then "(START) " else "") ++ c) from rfl]
  cases he : (ed == some d) with
  | true => simp only [he, if_true]; rfl
  | false =>
    have hsd : sd = some d := by
      rcases hm with hm | hm
      · exact hm
      · rw [hm] at he; simp at he
    rw [hsd]
    simp only [he, Bool.false_eq_true, if_false]
    rw [show ((some d : Option PyDate) == some d) = true from by simp]
    rfl

/-- Claim C10: the cloud filter reads the caption map after the
`"(START) "` / `"(END) "` tags have been written into it, so an image
whose parsed date coincides with a marker date is never dropped —
whatever its timeline caption (in particular "obscured by clouds"). -/
theorem c10_cloud_filter_sees_tags (tl : List TimelineEntry) (sd ed : Option PyDate)
    (f : String) (d : PyDate)
    (hf : parse_date_from_filename f = some d)
    (hm : sd = some d ∨ ed = some d) :
    cloudPred (buildCaptions tl sd ed) f = false ∧
    ∀ files : List String, f ∈ files →
      f ∈ cloudFilter (buildCaptions tl sd ed) files := by
  have h1 : cloudPred (buildCaptions tl sd ed) f = false := by
    simp only [cloudPred, hf]
    cases hc : capGet (buildCaptions tl sd ed) d with
    | none => decide
    | some v =>
      have hc2 := hc
      rw [buildCaptions_decorate] at hc2
      obtain ⟨c, hcc, hvc⟩ := Option.map_eq_some'.mp hc2
      simp only [Option.getD_some]
      rw [← hvc]
      exact tag_not_cloud _ (decorate_marked_head sd ed d c hm)
  refine ⟨h1, fun files hmem => ?_⟩
  unfold cloudFilter
  refine List.mem_filter.mpr ⟨hmem, ?_⟩
  rw [h1]
  rfl

/-- Witness for C10: one image dated 2023-01-05 whose timeline caption is
"obscured by clouds", with the start marker on the same date — the image
passes the filter. -/
theorem c10_cloud_filter_sees_tags_witness :
    (parse_date_from_filename "img_20230105_rgb.png" = some ⟨2023, 1, 5⟩ ∧
      ((some (⟨2023, 1, 5⟩ : PyDate) : Option PyDate) = some ⟨2023, 1, 5⟩ ∨
        (none : Option PyDate) = some ⟨2023, 1, 5⟩)) ∧
    cloudPred (buildCaptions [⟨2023, "January", 5, "obscured by clouds"⟩]
      (some ⟨2023, 1, 5⟩) none) "img_20230105_rgb.png" = false ∧
    "img_20230105_rgb.png" ∈ cloudFilter
      (buildCaptions [⟨2023, "January", 5, "obscured by clouds"⟩]
        (some ⟨2023, 1, 5⟩) none) ["img_20230105_rgb.png"] :=
  ⟨⟨by decide, Or.inl rfl⟩,
   (c10_cloud_filter_sees_tags [⟨2023, "January", 5, "obscured by clouds"⟩]
     (some ⟨2023, 1, 5⟩) none "img_20230105_rgb.png" ⟨2023, 1, 5⟩
     (by decide) (Or.inl rfl)).1,
   (c10_cloud_filter_sees_tags [⟨2023, "January", 5, "obscured by clouds"⟩]
     (some ⟨2023, 1, 5⟩) none "img_20230105_rgb.png" ⟨2023, 1, 5⟩
     (by decide) (Or.inl rfl)).2 ["img_20230105_rgb.png"] (by simp)⟩

/-! ## Claim C8 -/

theorem digitChar_isDigit : ∀ k, k < 10 → (digitChar k).isDigit = true := by decide

theorem digitVal_digitChar : ∀ k, k < 10 → digitVal (digitChar k) = k := by decide

theorem daysInMonth_le (y m : Nat) : daysInMonth y m ≤ 31 := by
  unfold daysInMonth
  split
  · split <;> omega
  · split <;> omega

theorem validDate_bounds (y m dy : Nat) (h : validDate ⟨y, m, dy⟩ = true) :
    1 ≤ y ∧ y ≤ 9999 ∧ 1 ≤ m ∧ m ≤ 12 ∧ 1 ≤ dy ∧ dy ≤ 31 := by
  unfold validDate at h
  simp only [Bool.and_eq_true, decide_eq_true_eq] at h
  have := daysInMonth_le y m
  omega

theorem tokenParse_fmt8 (d : PyDate) (h : validDate d = true) :
    tokenParse (fmt8 d) = some d := by
  obtain ⟨y, m, dy⟩ := d
  obtain ⟨h1, h2, h3, h4, h5, h6⟩ := validDate_bounds y m dy h
  have hdig : ∀ x : Nat, (digitChar (x % 10)).isDigit = true :=
    fun x => digitChar_isDigit _ (Nat.mod_lt _ (by omega))
  have hall : ((fmt8 ⟨y, m, dy⟩).data.length == 8 &&
      (fmt8 ⟨y, m, dy⟩).data.all Char.isDigit) = true := by
    simp [fmt8, pad4L, pad2L, hdig]
  unfold tokenParse
  rw [if_pos hall]
  simp only [parse8, fmt8, pad4L, pad2L, List.cons_append, List.nil_append]
  have e : ∀ x : Nat, digitVal (digitChar (x % 10)) = x % 10 :=
    fun x => digitVal_digitChar _ (Nat.mod_lt _ (by omega))
  rw [e, e, e, e, e, e, e, e]
  have hy : ((y / 1000 % 10 * 10 + y / 100 % 10) * 10 + y / 10 % 10) * 10 + y % 10 = y := by
    omega
  have hm : m / 10 % 10 * 10 + m % 10 = m := by omega
  have hdy : dy / 10 % 10 * 10 + dy % 10 = dy := by omega
  rw [hy, hm, hdy, if_pos h]

theorem tokenParse_fmt10 (d : PyDate) (h : validDate d = true) :
    tokenParse (fmt10 d) = some d := by
  obtain ⟨y, m, dy⟩ := d
  obtain ⟨h1, h2, h3, h4, h5, h6⟩ := validDate_bounds y m dy h
  have hdig : ∀ x : Nat, (digitChar (x % 10)).isDigit = true :=
    fun x => digitChar_isDigit _ (Nat.mod_lt _ (by omega))
  have hno8 : ((fmt10 ⟨y, m, dy⟩).data.length == 8 &&
      (fmt10 ⟨y, m, dy⟩).data.all Char.isDigit) = false := by
    simp [fmt10, pad4L, pad2L]
  have hc2 : ((fmt10 ⟨y, m, dy⟩).data.length == 10 &&
      (fmt10 ⟨y, m, dy⟩).data.any (fun c => c == '-')) = true := by
    simp [fmt10, pad4L, pad2L]
  unfold tokenParse
  rw [if_neg (by rw [hno8]; exact Bool.false_ne_true), if_pos hc2]
  simp only [parse10, fmt10, pad4L, pad2L, List.cons_append, List.nil_append]
  have e : ∀ x : Nat, digitVal (digitChar (x % 10)) = x % 10 :=
    fun x => digitVal_digitChar _ (Nat.mod_lt _ (by omega))
  rw [if_pos (by simp [hdig])]
  rw [e, e, e, e, e, e, e, e]
  have hy : ((y / 1000 % 10 * 10 + y / 100 % 10) * 10 + y / 10 % 10) * 10 + y % 10 = y := by
    omega
  have hm : m / 10 % 10 * 10 + m % 10 = m := by omega
  have hdy : dy / 10 % 10 * 10 + dy % 10 = dy := by omega
  rw [hy, hm, hdy, if_pos h]

theorem findSome?_first {α β : Type} (g : α → Option β) (dflt : α) :
    ∀ (l : List α) (i : Nat) (b : β), i < l.length →
      (∀ j, j < i → g (l.getD j dflt) = none) →
      g (l.getD i dflt) = some b → l.findSome? g = some b := by
  intro l
  induction l with
  | nil => intro i b hi; simp at hi
  | cons a l ih =>
    intro i b hi hfirst hhit
    cases i with
    | zero =>
      have hga : g a = some b := hhit
      simp [List.findSome?, hga]
    | succ i2 =>
      have ha : g a = none := hfirst 0 (by omega)
      have hstep : (a :: l).findSome? g = l.findSome? g := by
        simp [List.findSome?, ha]
      rw [hstep]
      exact ih i2 b (by simpa using hi) (fun j hj => hfirst (j + 1) (by omega)) hhit

/-- Claim C8: for every filename whose underscore-delimited segments have,
at position `i`, the `YYYYMMDD` or `YYYY-MM-DD` rendering of a valid
calendar date, while no earlier segment parses as a date token, the
parsed-from-filename date is exactly that calendar date — independent of
the surrounding segments and extension (first matching token wins). -/
theorem c8_filename_token_date (name : String) (i : Nat) (d : PyDate)
    (hi : i < (splitParts name).length)
    (htok : (splitParts name).getD i "" = fmt8 d ∨ (splitParts name).getD i "" = fmt10 d)
    (hd : validDate d = true)
    (hfirst : ∀ j, j < i → tokenParse ((splitParts name).getD j "") = none) :
    parse_date_from_filename name = some d := by
  unfold parse_date_from_filename
  apply findSome?_first tokenParse "" (splitParts name) i d hi hfirst
  rcases htok with h | h
  · rw [h]; exact tokenParse_fmt8 d hd
  · rw [h]; exact tokenParse_fmt10 d hd

/-- Witness for C8: `"site_2023-01-05_x.jpg"`, whose second segment is the
`YYYY-MM-DD` token of 2023-01-05. -/
theorem c8_filename_token_date_witness :
    (1 < (splitParts "site_2023-01-05_x.jpg").length ∧
      (splitParts "site_2023-01-05_x.jpg").getD 1 "" = fmt10 ⟨2023, 1, 5⟩ ∧
      validDate ⟨2023, 1, 5⟩ = true ∧
      (∀ j, j < 1 → tokenParse ((splitParts "site_2023-01-05_x.jpg").getD j "") = none)) ∧
    parse_date_from_filename "site_2023-01-05_x.jpg" = some ⟨2023, 1, 5⟩ :=
  ⟨⟨by decide, by decide, by decide, by decide⟩,
   c8_filename_token_date "site_2023-01-05_x.jpg" 1 ⟨2023, 1, 5⟩ (by decide)
     (Or.inr (by decide)) (by decide) (by decide)⟩
